import Mathlib

/-!
Verification of `ptvsd/multiproc.py`: the command-line patcher `patch_args`,
the root listener's announcement handler, the handshake ordering through the
announcement queue, and the child notifier's failure handling.

Command-line tokens are `String`s; token sequences are `List String`.
Process-wide configuration (`os.getpid()`, `options.subprocess_notify`,
`subprocess_listener_port()`) is passed explicitly as parameters, since
`patch_args` only reads it.
-/

namespace Multiproc

/-- Python `s.startswith(p)`, as a prefix test on the underlying character lists. -/
def strStartsWith (s p : String) : Bool :=
  p.data.isPrefixOf s.data

/-- Python `s.endswith(p)`, as a suffix test on the underlying character lists. -/
def strEndsWith (s p : String) : Bool :=
  p.data.isSuffixOf s.data

/-- Tail of the character list after the first occurrence of `Q`, `W` or `X`,
or `none` when no such character occurs: the information content of
`re.split(r'[QWX]', arg, maxsplit=1)` (a singleton result corresponds to `none`;
a two-element result corresponds to `some` of the part after the matched letter). -/
def qwxRest : List Char → Option (List Char)
  | [] => none
  | c :: cs => if c == 'Q' || c == 'W' || c == 'X' then some cs else qwxRest cs

/-- The `expect_value` computed for a block of combined short switches, exactly as
the code computes it: `expect_value = (len(split) > 1 and split[-1] != '')`
(multiproc.py lines 225-226). -/
def expectValueOf (arg : String) : Bool :=
  match qwxRest arg.data with
  | none => false
  | some rest => !rest.isEmpty

/-- Outcome of the target-locating scan in `patch_args`: the token `-` was seen
(stdin invocation, unsupported), the loop ran out of tokens without a `break`
(the `for`-`else` branch), or the target was located at index `i` of the
original sequence. -/
inductive ScanResult : Type
  | stdin : ScanResult
  | noTarget : ScanResult
  | target : Nat → ScanResult
  deriving DecidableEq, Repr

/-- The scanning loop of `patch_args` (multiproc.py lines 192-231), over the
tokens after the interpreter binary. `i` is the index in the original sequence
of the head of the remaining list, and `expect_value` is the loop-carried flag. -/
def scanArgs : List String → Nat → Bool → ScanResult
  | [], _, _ => .noTarget
  | arg :: rest, i, expect_value =>
    if arg == "-" then .stdin
    else if expect_value then scanArgs rest (i + 1) false
    else if !strStartsWith arg "-" || arg == "-c" || arg == "-m" then .target i
    else if strStartsWith arg "--" then
      scanArgs rest (i + 1) (arg == "--check-hash-based-pycs")
    else
      scanArgs rest (i + 1) (expectValueOf arg)

/-- Python `a or b` for `a = options.subprocess_notify` (an optional port) and
`b = subprocess_listener_port()`: falls back to `b` when `a` is `None` or `0`
(both falsy in Python). -/
def pyOrFallback (subprocess_notify : Option Nat) (listener_port : Nat) : Nat :=
  match subprocess_notify with
  | none => listener_port
  | some n => if n == 0 then listener_port else n

/-- The fixed token block spliced in before the target (multiproc.py lines
243-251), with `pid = os.getpid()`. -/
def injectedArgs (pid : Nat) (subprocess_notify : Option Nat) (listener_port : Nat) :
    List String :=
  ["-m", "ptvsd",
   "--host", "localhost",
   "--port", "0",
   "--wait",
   "--multiprocess",
   "--subprocess-of", toString pid,
   "--subprocess-notify", toString (pyOrFallback subprocess_notify listener_port)]

/-- The function `patch_args` from multiproc.py lines 162-253. The scan skips index 0
(the interpreter binary); on `-` or scan exhaustion the input is returned
unchanged; a bare-filename target not ending in `.py` is returned unchanged;
otherwise the fixed debug block is inserted right before the target
(`args[i:i] = [...]`). -/
def patch_args (pid : Nat) (subprocess_notify : Option Nat) (listener_port : Nat)
    (args : List String) : List String :=
  match scanArgs (args.drop 1) 1 false with
  | .stdin => args
  | .noTarget => args
  | .target i =>
    if !strStartsWith (args.getD i "") "-" && !strEndsWith (args.getD i "") ".py" then
      args
    else
      args.take i ++ injectedArgs pid subprocess_notify listener_port ++ args.drop i

/-- JSON-like values carried in announcement bodies: numbers, strings, booleans,
null, and nested objects (association lists in insertion order). The
`rootStartRequest` payload is opaque to the code and may be any such value. -/
inductive JVal : Type
  | num : Int → JVal
  | str : String → JVal
  | bool : Bool → JVal
  | null : JVal
  | obj : List (String × JVal) → JVal

/-- Python dict lookup on an association list kept in insertion order. -/
def dictLookup {α : Type} : List (String × α) → String → Option α
  | [], _ => none
  | (k', v) :: rest, k => if k' == k then some v else dictLookup rest k

/-- Python dict assignment `d[k] = v` (also one key of `d.update`): overwrite in
place when the key is present, append otherwise. -/
def dictInsert {α : Type} : List (String × α) → String → α → List (String × α)
  | [], k, v => [(k, v)]
  | (k', v') :: rest, k, v =>
    if k' == k then (k, v) :: rest else (k', v') :: dictInsert rest k v

/-- The enrichment performed by the root listener's handler (multiproc.py lines
107-111): copy the request arguments and update them with `rootProcessId`
(the listener process's own pid) and `rootStartRequest`. -/
def enrichArguments (pid : Nat) (root_start_request : JVal)
    (requestArguments : List (String × JVal)) : List (String × JVal) :=
  dictInsert (dictInsert requestArguments "rootProcessId" (JVal.num pid))
    "rootStartRequest" root_start_request

/-- The value computed by `ptvsd_subprocess_request` (multiproc.py lines
103-117): the pair that is placed in `subprocess_queue` — the enriched
arguments, and the response record created with `incomingConnection` false. -/
def ptvsd_subprocess_request (pid : Nat) (root_start_request : JVal)
    (requestArguments : List (String × JVal)) :
    List (String × JVal) × List (String × JVal) :=
  (enrichArguments pid root_start_request requestArguments,
   [("incomingConnection", JVal.bool false)])

/-- Program counter of the per-connection handler thread in
`_handle_subprocess`: before `subprocess_queue.put`, blocked inside
`subprocess_queue.join()`, or past the join (the response reply is sent). -/
inductive HandlerPC : Type
  | start : HandlerPC
  | joining : HandlerPC
  | returned : HandlerPC
  deriving DecidableEq, Repr

/-- Program counter of the queue consumer (the session manager): before
`subprocess_queue.get()`, mutating the response after `get`, or past
`subprocess_queue.task_done()`. -/
inductive ConsumerPC : Type
  | idle : ConsumerPC
  | deciding : ConsumerPC
  | done : ConsumerPC
  deriving DecidableEq, Repr

/-- Joint state of one handler thread, one consumer, and `subprocess_queue`.
`unfinished` is the queue's unfinished-task counter (`put` increments it,
`task_done` decrements it, `join` blocks while it is positive); `queued` says
whether the entry sits in the queue; `decided` says whether the consumer has
finished deciding `incomingConnection`; `incomingConnection` is the current
value of that field of the shared response record. -/
structure HandshakeState : Type where
  handler : HandlerPC
  consumer : ConsumerPC
  unfinished : Nat
  queued : Bool
  decided : Bool
  incomingConnection : Bool
  deriving DecidableEq, Repr

/-- State at handler entry: nothing queued, response not yet decided. -/
def initialHandshakeState : HandshakeState :=
  { handler := .start, consumer := .idle, unfinished := 0,
    queued := false, decided := false, incomingConnection := false }

/-- Interleaved small-step semantics of multiproc.py lines 114-117 against the
queue consumer contract: `put` enqueues the pair with `incomingConnection`
false and increments the unfinished counter; `get` dequeues; `setResponse`
records the consumer's decision; `taskDone` is `subprocess_queue.task_done()`;
`joinReturn` is `subprocess_queue.join()` returning, which is enabled only
when the unfinished counter is zero, after which the handler returns the
response. -/
inductive HandshakeStep : HandshakeState → HandshakeState → Prop
  | put (s : HandshakeState) (h : s.handler = .start) :
      HandshakeStep s { s with handler := .joining, queued := true,
                               unfinished := s.unfinished + 1,
                               incomingConnection := false }
  | get (s : HandshakeState) (h₁ : s.consumer = .idle) (h₂ : s.queued = true) :
      HandshakeStep s { s with consumer := .deciding, queued := false }
  | setResponse (s : HandshakeState) (b : Bool)
      (h₁ : s.consumer = .deciding) (h₂ : s.decided = false) :
      HandshakeStep s { s with decided := true, incomingConnection := b }
  | taskDone (s : HandshakeState) (h₁ : s.consumer = .deciding) (h₂ : s.decided = true) :
      HandshakeStep s { s with consumer := .done, unfinished := s.unfinished - 1 }
  | joinReturn (s : HandshakeState) (h₁ : s.handler = .joining) (h₂ : s.unfinished = 0) :
      HandshakeStep s { s with handler := .returned }

/-- States reachable from handler entry by interleaved steps. -/
inductive HandshakeReachable : HandshakeState → Prop
  | init : HandshakeReachable initialHandshakeState
  | step {s t : HandshakeState} :
      HandshakeReachable s → HandshakeStep s t → HandshakeReachable t

/-- Transport-level failures that `request.wait_for_response()` can raise
(multiproc.py line 148): the connection to the root dropped, or any other
exception. -/
inductive TransportError : Type
  | connectionLost : TransportError
  | other : String → TransportError
  deriving DecidableEq, Repr

/-- Observable outcome of `notify_root` after the announcement is sent:
`exited code reported` is `sys.exit(code)` with `reported` recording whether
the failure was printed to `sys.__stderr__`; `proceeded readyToRun` is a
normal return with `readyToRun` recording whether the local debugger's
`ready_to_run` flag was set. -/
inductive NotifyOutcome : Type
  | exited : Nat → Bool → NotifyOutcome
  | proceeded : Bool → NotifyOutcome
  deriving DecidableEq, Repr

/-- Lines 147-159 of multiproc.py: the try/except around `wait_for_response()`
prints the failure to stderr and calls `sys.exit(0)`; on success, when
`incomingConnection` is false the notifier waits for the debugger and sets
`ready_to_run`, and when it is true it does nothing further. -/
def notify_root_await (result : Except TransportError Bool) : NotifyOutcome :=
  match result with
  | .error _ => .exited 0 true
  | .ok incomingConnection =>
    if incomingConnection then .proceeded false else .proceeded true

end Multiproc

namespace Multiproc

/-- The scan starts at index `j` and indices only grow: a located target is at
index `j` or later. -/
theorem scanArgs_target_ge (l : List String) :
    ∀ (j : Nat) (ev : Bool) (i : Nat), scanArgs l j ev = .target i → j ≤ i := by
  induction l with
  | nil => intro j ev i h; simp [scanArgs] at h
  | cons a rest ih =>
    intro j ev i h
    simp only [scanArgs] at h
    split at h
    · exact ScanResult.noConfusion h
    · split at h
      · have := ih (j + 1) false i h; omega
      · split at h
        · injection h with h'; omega
        · split at h
          · have := ih (j + 1) (a == "--check-hash-based-pycs") i h; omega
          · have := ih (j + 1) (expectValueOf a) i h; omega

/-- A located target lies within the scanned tokens. -/
theorem scanArgs_target_lt (l : List String) :
    ∀ (j : Nat) (ev : Bool) (i : Nat), scanArgs l j ev = .target i →
      i < j + l.length := by
  induction l with
  | nil => intro j ev i h; simp [scanArgs] at h
  | cons a rest ih =>
    intro j ev i h
    simp only [scanArgs] at h
    simp only [List.length_cons]
    split at h
    · exact ScanResult.noConfusion h
    · split at h
      · have := ih (j + 1) false i h; omega
      · split at h
        · injection h with h'; omega
        · split at h
          · have := ih (j + 1) (a == "--check-hash-based-pycs") i h; omega
          · have := ih (j + 1) (expectValueOf a) i h; omega

/-- Looking up the key just assigned yields the assigned value. -/
theorem dictLookup_dictInsert_same {α : Type} (d : List (String × α))
    (k : String) (v : α) : dictLookup (dictInsert d k v) k = some v := by
  induction d with
  | nil => simp [dictInsert, dictLookup]
  | cons p rest ih =>
    obtain ⟨k', v'⟩ := p
    by_cases h : (k' == k) = true
    · simp [dictInsert, dictLookup, h]
    · simp only [dictInsert, dictLookup, h]
      simp only [Bool.false_eq_true, if_false]
      simp [dictLookup, h, ih]

/-- Assigning one key leaves lookups of other keys unchanged. -/
theorem dictLookup_dictInsert_ne {α : Type} (d : List (String × α))
    (k k₂ : String) (v : α) (hne : k ≠ k₂) :
    dictLookup (dictInsert d k v) k₂ = dictLookup d k₂ := by
  induction d with
  | nil => simp [dictInsert, dictLookup, hne]
  | cons p rest ih =>
    obtain ⟨k', v'⟩ := p
    by_cases h : (k' == k) = true
    · have hk : k' = k := by simpa using h
      subst hk
      simp [dictInsert, dictLookup, hne]
    · simp only [dictInsert, h]
      simp only [Bool.false_eq_true, if_false]
      simp [dictLookup, ih]

/-- The six shapes of state reachable in the handshake protocol, in protocol
order: initial, queued, dequeued, decided, acknowledged, returned. -/
def HandshakeInv (s : HandshakeState) : Prop :=
  s = initialHandshakeState ∨
  s = { handler := .joining, consumer := .idle, unfinished := 1,
        queued := true, decided := false, incomingConnection := false } ∨
  s = { handler := .joining, consumer := .deciding, unfinished := 1,
        queued := false, decided := false, incomingConnection := false } ∨
  (∃ b, s = { handler := .joining, consumer := .deciding, unfinished := 1,
              queued := false, decided := true, incomingConnection := b }) ∨
  (∃ b, s = { handler := .joining, consumer := .done, unfinished := 0,
              queued := false, decided := true, incomingConnection := b }) ∨
  (∃ b, s = { handler := .returned, consumer := .done, unfinished := 0,
              queued := false, decided := true, incomingConnection := b })

/-- Every step of the handshake protocol preserves the state enumeration. -/
theorem handshakeInv_step {s t : HandshakeState}
    (hs : HandshakeInv s) (hst : HandshakeStep s t) : HandshakeInv t := by
  unfold HandshakeInv at hs ⊢
  cases hst <;>
    rcases hs with rfl | rfl | rfl | ⟨b, rfl⟩ | ⟨b, rfl⟩ | ⟨b, rfl⟩ <;>
    simp_all [initialHandshakeState]

/-- Every reachable handshake state is one of the six enumerated shapes. -/
theorem handshakeInv_reachable {s : HandshakeState} (h : HandshakeReachable s) :
    HandshakeInv s := by
  induction h with
  | init => exact Or.inl rfl
  | step hr hst ih => exact handshakeInv_step ih hst

/-- C1: the claim fails on the code as written. For a bare `-Q` the code sets
`expect_value` only when something follows the letter in the same token
(`split[-1] != ''`), so `expectValueOf "-Q"` is `false` while
`expectValueOf "-Qold"` is `true` — the inverse of the claimed (and
documented) behaviour. Consequently the scan takes `"warn"` to be the target
at index 2, and since `"warn"` is a bare filename not ending in `.py`,
`patch_args(["py","-Q","warn","-m","app"])` returns its input unchanged
instead of splicing the debug switches before `-m`. -/
theorem patch_args_split_value_bug :
    expectValueOf "-Q" = false ∧
    expectValueOf "-Qold" = true ∧
    scanArgs ["-Q", "warn", "-m", "app"] 1 false = ScanResult.target 2 ∧
    patch_args 1 (some 5) 7 ["py", "-Q", "warn", "-m", "app"] =
      ["py", "-Q", "warn", "-m", "app"] := by
  decide

/-- C2: on every unsupported invocation `patch_args` returns its input
unchanged: when the first scanned token (index 1) is exactly `-`, when the
scan completes without locating a target, and when the located target is a
bare filename (not starting with `-`) that does not end in `.py`; in
particular for `["py","-"]` and `["py","app.zip"]`. -/
theorem patch_args_unsupported_unchanged (pid : Nat) (sn : Option Nat) (lp : Nat)
    (args : List String) :
    (args.get? 1 = some "-" → patch_args pid sn lp args = args) ∧
    (scanArgs (args.drop 1) 1 false = .noTarget → patch_args pid sn lp args = args) ∧
    (∀ i, scanArgs (args.drop 1) 1 false = .target i →
      strStartsWith (args.getD i "") "-" = false →
      strEndsWith (args.getD i "") ".py" = false →
      patch_args pid sn lp args = args) ∧
    patch_args pid sn lp ["py", "-"] = ["py", "-"] ∧
    patch_args pid sn lp ["py", "app.zip"] = ["py", "app.zip"] := by
  refine ⟨?_, ?_, ?_, rfl, rfl⟩
  · intro h
    match args, h with
    | a :: b :: t, h =>
      have hb : b = "-" := by simpa using h
      subst hb
      rfl
  · intro h
    simp only [patch_args, h]
  · intro i htgt hs he
    simp only [patch_args, htgt, hs, he]
    simp

/-- Witness for C2 at the concrete inputs named by the claim. -/
theorem patch_args_unsupported_unchanged_witness :
    ((["py", "-"] : List String).get? 1 = some "-" ∧
      patch_args 1 none 7 ["py", "-"] = ["py", "-"]) ∧
    (scanArgs ((["py", "app.zip"] : List String).drop 1) 1 false =
        ScanResult.target 1 ∧
      strStartsWith ((["py", "app.zip"] : List String).getD 1 "") "-" = false ∧
      strEndsWith ((["py", "app.zip"] : List String).getD 1 "") ".py" = false ∧
      patch_args 1 none 7 ["py", "app.zip"] = ["py", "app.zip"]) :=
  ⟨⟨by decide, (patch_args_unsupported_unchanged 1 none 7 ["py", "-"]).1 (by decide)⟩,
   ⟨by decide, by decide, by decide,
    (patch_args_unsupported_unchanged 1 none 7 ["py", "app.zip"]).2.2.1 1
      (by decide) (by decide) (by decide)⟩⟩

/-- C3: on `["py","script.py","--flag"]` the injected debug switches appear as
one contiguous block immediately before `"script.py"`, and `"--flag"` still
follows `"script.py"` unmodified. -/
theorem patch_args_simple_case (pid : Nat) (sn : Option Nat) (lp : Nat) :
    patch_args pid sn lp ["py", "script.py", "--flag"] =
      ["py"] ++ injectedArgs pid sn lp ++ ["script.py", "--flag"] := rfl

/-- C4: `"-Rv"` is a block of combined short switches that consumes no
following value, the scan locates `-m app` as the module-run target at index
2, and the debug switches are spliced immediately before `-m`. -/
theorem patch_args_combined_switches (pid : Nat) (sn : Option Nat) (lp : Nat) :
    expectValueOf "-Rv" = false ∧
    scanArgs ["-Rv", "-m", "app"] 1 false = ScanResult.target 2 ∧
    patch_args pid sn lp ["py", "-Rv", "-m", "app"] =
      ["py", "-Rv"] ++ injectedArgs pid sn lp ++ ["-m", "app"] :=
  ⟨rfl, rfl, rfl⟩

/-- C5: when a supported target is found at index `i`, the block spliced in
immediately before it is exactly the fixed switch list: host `localhost`,
port `0`, wait, multiprocess, the current process id as `--subprocess-of`,
and as `--subprocess-notify` the configured endpoint with fallback to the
locally bound listener port when none (or a falsy one) was configured. -/
theorem patch_args_injected_block (pid : Nat) (sn : Option Nat) (lp : Nat)
    (args : List String) (i : Nat)
    (htgt : scanArgs (args.drop 1) 1 false = .target i)
    (hsupp : strStartsWith (args.getD i "") "-" = true ∨
      strEndsWith (args.getD i "") ".py" = true) :
    patch_args pid sn lp args =
      args.take i ++
        ["-m", "ptvsd",
         "--host", "localhost",
         "--port", "0",
         "--wait",
         "--multiprocess",
         "--subprocess-of", toString pid,
         "--subprocess-notify", toString (pyOrFallback sn lp)] ++
      args.drop i ∧
    pyOrFallback none lp = lp ∧
    (∀ n : Nat, n ≠ 0 → pyOrFallback (some n) lp = n) := by
  refine ⟨?_, rfl, ?_⟩
  · have hcond : (!strStartsWith (args.getD i "") "-" &&
        !strEndsWith (args.getD i "") ".py") = false := by
      rcases hsupp with hs | he
      · rw [hs]; simp
      · rw [he]; simp
    simp only [patch_args, htgt, hcond, Bool.false_eq_true, if_false, injectedArgs]
  · intro n hn
    simp [pyOrFallback, hn]

/-- Witness for C5 at the module-run invocation `["py","-m","app"]`. -/
theorem patch_args_injected_block_witness :
    scanArgs ((["py", "-m", "app"] : List String).drop 1) 1 false =
      ScanResult.target 1 ∧
    strStartsWith ((["py", "-m", "app"] : List String).getD 1 "") "-" = true ∧
    (patch_args 3 none 7 ["py", "-m", "app"] =
        (["py", "-m", "app"] : List String).take 1 ++
          ["-m", "ptvsd",
           "--host", "localhost",
           "--port", "0",
           "--wait",
           "--multiprocess",
           "--subprocess-of", toString 3,
           "--subprocess-notify", toString (pyOrFallback none 7)] ++
        (["py", "-m", "app"] : List String).drop 1 ∧
      pyOrFallback none 7 = 7 ∧
      (∀ n : Nat, n ≠ 0 → pyOrFallback (some n) 7 = n)) :=
  ⟨by decide, by decide,
   patch_args_injected_block 3 none 7 ["py", "-m", "app"] 1 (by decide)
     (Or.inl (by decide))⟩

/-- C6: for every non-empty token sequence, the head of the patched sequence
is the head of the input: the interpreter binary token is never altered,
removed, or preceded by injected tokens. -/
theorem patch_args_preserves_head (pid : Nat) (sn : Option Nat) (lp : Nat)
    (args : List String) (h : args ≠ []) :
    (patch_args pid sn lp args).head? = args.head? := by
  cases hscan : scanArgs (args.drop 1) 1 false with
  | stdin => simp only [patch_args, hscan]
  | noTarget => simp only [patch_args, hscan]
  | target i =>
    have h1 : 1 ≤ i := scanArgs_target_ge (args.drop 1) 1 false i hscan
    simp only [patch_args, hscan]
    split
    · rfl
    · cases args with
      | nil => exact absurd rfl h
      | cons a t =>
        obtain ⟨k, rfl⟩ : ∃ k, i = k + 1 := ⟨i - 1, by omega⟩
        simp

/-- Witness for C6 at a concrete single-file invocation. -/
theorem patch_args_preserves_head_witness :
    (["py", "x.py"] : List String) ≠ [] ∧
    (patch_args 1 none 7 ["py", "x.py"]).head? =
      (["py", "x.py"] : List String).head? :=
  ⟨by decide, patch_args_preserves_head 1 none 7 ["py", "x.py"] (by decide)⟩

/-- C7: for every well-formed announcement request (one that does not already
carry the root-added fields), the record the handler enqueues contains every
field of the incoming request unchanged, plus `rootProcessId` equal to the
listener process's own pid and `rootStartRequest` equal to the process-wide
stored session-start request; the paired response is created with
`incomingConnection` false. -/
theorem handler_enriches_announcement (pid : Nat) (rsr : JVal)
    (req : List (String × JVal))
    (h₁ : dictLookup req "rootProcessId" = none)
    (h₂ : dictLookup req "rootStartRequest" = none) :
    (∀ k v, dictLookup req k = some v →
      dictLookup (ptvsd_subprocess_request pid rsr req).1 k = some v) ∧
    dictLookup (ptvsd_subprocess_request pid rsr req).1 "rootProcessId" =
      some (JVal.num pid) ∧
    dictLookup (ptvsd_subprocess_request pid rsr req).1 "rootStartRequest" =
      some rsr ∧
    (ptvsd_subprocess_request pid rsr req).2 =
      [("incomingConnection", JVal.bool false)] := by
  refine ⟨?_, ?_, ?_, rfl⟩
  · intro k v hk
    have hk1 : k ≠ "rootProcessId" := by
      intro e; subst e; rw [hk] at h₁; exact Option.noConfusion h₁
    have hk2 : k ≠ "rootStartRequest" := by
      intro e; subst e; rw [hk] at h₂; exact Option.noConfusion h₂
    simp only [ptvsd_subprocess_request, enrichArguments]
    rw [dictLookup_dictInsert_ne _ _ _ _ (Ne.symm hk2),
        dictLookup_dictInsert_ne _ _ _ _ (Ne.symm hk1)]
    exact hk
  · simp only [ptvsd_subprocess_request, enrichArguments]
    rw [dictLookup_dictInsert_ne _ _ _ _ (by decide)]
    exact dictLookup_dictInsert_same _ _ _
  · simp only [ptvsd_subprocess_request, enrichArguments]
    exact dictLookup_dictInsert_same _ _ _

/-- Witness for C7 at a concrete three-field announcement. -/
theorem handler_enriches_announcement_witness :
    dictLookup [("parentProcessId", JVal.num 5), ("processId", JVal.num 42),
      ("port", JVal.num 0)] "rootProcessId" = none ∧
    dictLookup [("parentProcessId", JVal.num 5), ("processId", JVal.num 42),
      ("port", JVal.num 0)] "rootStartRequest" = none ∧
    ((∀ k v,
        dictLookup [("parentProcessId", JVal.num 5), ("processId", JVal.num 42),
          ("port", JVal.num 0)] k = some v →
        dictLookup (ptvsd_subprocess_request 9 JVal.null
          [("parentProcessId", JVal.num 5), ("processId", JVal.num 42),
           ("port", JVal.num 0)]).1 k = some v) ∧
      dictLookup (ptvsd_subprocess_request 9 JVal.null
        [("parentProcessId", JVal.num 5), ("processId", JVal.num 42),
         ("port", JVal.num 0)]).1 "rootProcessId" = some (JVal.num 9) ∧
      dictLookup (ptvsd_subprocess_request 9 JVal.null
        [("parentProcessId", JVal.num 5), ("processId", JVal.num 42),
         ("port", JVal.num 0)]).1 "rootStartRequest" = some JVal.null ∧
      (ptvsd_subprocess_request 9 JVal.null
        [("parentProcessId", JVal.num 5), ("processId", JVal.num 42),
         ("port", JVal.num 0)]).2 =
        [("incomingConnection", JVal.bool false)]) :=
  ⟨rfl, rfl,
   handler_enriches_announcement 9 JVal.null
     [("parentProcessId", JVal.num 5), ("processId", JVal.num 42),
      ("port", JVal.num 0)] rfl rfl⟩

/-- C8: in every reachable state of the handshake protocol, once the handler
has returned (so the reply is sent to the descendant) the consumer has both
decided `incomingConnection` and acknowledged the entry via `task_done`; and
until the decision is made the response still carries its initial
`incomingConnection = false`. -/
theorem handshake_reply_after_task_done (s : HandshakeState)
    (h : HandshakeReachable s) :
    (s.handler = .returned → s.decided = true ∧ s.consumer = .done) ∧
    (s.decided = false → s.incomingConnection = false) := by
  have hinv := handshakeInv_reachable h
  rcases hinv with rfl | rfl | rfl | ⟨b, rfl⟩ | ⟨b, rfl⟩ | ⟨b, rfl⟩ <;>
    simp [initialHandshakeState]

/-- Witness for C8: the full protocol run reaches the returned state, and
there the consumer is done and the decision was made. -/
theorem handshake_reply_after_task_done_witness :
    HandshakeReachable
      { handler := .returned, consumer := .done, unfinished := 0,
        queued := false, decided := true, incomingConnection := true } ∧
    (({ handler := .returned, consumer := .done, unfinished := 0,
        queued := false, decided := true,
        incomingConnection := true } : HandshakeState).handler = .returned →
      ({ handler := .returned, consumer := .done, unfinished := 0,
         queued := false, decided := true,
         incomingConnection := true } : HandshakeState).decided = true ∧
      ({ handler := .returned, consumer := .done, unfinished := 0,
         queued := false, decided := true,
         incomingConnection := true } : HandshakeState).consumer = .done) ∧
    (({ handler := .returned, consumer := .done, unfinished := 0,
        queued := false, decided := true,
        incomingConnection := true } : HandshakeState).decided = false →
      ({ handler := .returned, consumer := .done, unfinished := 0,
         queued := false, decided := true,
         incomingConnection := true } : HandshakeState).incomingConnection =
        false) := by
  have h1 : HandshakeReachable initialHandshakeState := HandshakeReachable.init
  have h2 := HandshakeReachable.step h1 (HandshakeStep.put _ rfl)
  have h3 := HandshakeReachable.step h2 (HandshakeStep.get _ rfl rfl)
  have h4 := HandshakeReachable.step h3 (HandshakeStep.setResponse _ true rfl rfl)
  have h5 := HandshakeReachable.step h4 (HandshakeStep.taskDone _ rfl rfl)
  have h6 := HandshakeReachable.step h5 (HandshakeStep.joinReturn _ rfl rfl)
  have h7 : HandshakeReachable
      { handler := .returned, consumer := .done, unfinished := 0,
        queued := false, decided := true, incomingConnection := true } := h6
  exact ⟨h7, handshake_reply_after_task_done _ h7⟩

/-- C9: whatever transport error occurs while awaiting the response to the
announcement, `notify_root` reports the failure to the error stream and
terminates the process with the success-like exit status 0; the error is
never propagated as an outcome. -/
theorem notify_root_fail_open (e : TransportError) :
    notify_root_await (Except.error e) = NotifyOutcome.exited 0 true := rfl

/-- C10: the output of `patch_args` is either the input itself, or the input
with one contiguous block of debug-launch tokens inserted at exactly one
position at index 1 or later; every input token is preserved unchanged and in
its original relative order. -/
theorem patch_args_frame (pid : Nat) (sn : Option Nat) (lp : Nat)
    (args : List String) :
    patch_args pid sn lp args = args ∨
    ∃ i, 1 ≤ i ∧ i ≤ args.length ∧
      patch_args pid sn lp args =
        args.take i ++ injectedArgs pid sn lp ++ args.drop i ∧
      args.take i ++ args.drop i = args := by
  cases hscan : scanArgs (args.drop 1) 1 false with
  | stdin => left; simp only [patch_args, hscan]
  | noTarget => left; simp only [patch_args, hscan]
  | target i =>
    have h1 : 1 ≤ i := scanArgs_target_ge (args.drop 1) 1 false i hscan
    have h2 : i < 1 + (args.drop 1).length :=
      scanArgs_target_lt (args.drop 1) 1 false i hscan
    have hlen : i ≤ args.length := by
      cases args with
      | nil => simp [scanArgs] at hscan
      | cons a t => simp only [List.length_cons]; simp at h2; omega
    simp only [patch_args, hscan]
    split
    · left; rfl
    · right
      exact ⟨i, h1, hlen, rfl, List.take_append_drop i args⟩

end Multiproc
